import Mathlib

/-!
Verification development for the solar production estimator in
src/newproj.py.  The numeric code is embedded shallowly over the real
numbers: Python floats become elements of ℝ, numpy arrays over the 24
hour indices become lists produced by mapping over List.range 24, and
the two fallible retrieval paths become functions into Except / an
outcome type.
-/

open Finset

/-- Panel parameters held by the Python class SolarCellCalculator
(fields efficiency, area_m2, tilt_angle). -/
structure SolarCellCalculator where
  efficiency : ℝ
  area_m2 : ℝ
  tilt_angle : ℝ

/-- Embeds np.radians: degrees to radians. -/
noncomputable def radians (x : ℝ) : ℝ := x * Real.pi / 180

/-- Temperature derating factor, line 83 of src/newproj.py:
temp_factor = 1 - 0.004 * max(0, temperature_C - 25). -/
noncomputable def temp_factor (temperature_C : ℝ) : ℝ :=
  1 - 0.004 * max 0 (temperature_C - 25)

/-- Tilt factor, line 84 of src/newproj.py:
tilt_factor = np.sin(np.radians(self.tilt_angle)) * 0.5 + 0.5. -/
noncomputable def tilt_factor (c : SolarCellCalculator) : ℝ :=
  Real.sin (radians c.tilt_angle) * 0.5 + 0.5

/-- Unnormalized Gaussian hourly weight, line 87 of src/newproj.py:
np.exp(-0.5 * ((np.arange(24) - 12)/4)**2) at hour index h. -/
noncomputable def raw_profile (h : ℕ) : ℝ :=
  Real.exp (-0.5 * (((h : ℝ) - 12) / 4) ^ 2)

/-- Sum of the 24 raw weights (profile.sum() on line 88). -/
noncomputable def profile_sum : ℝ := ∑ h ∈ Finset.range 24, raw_profile h

/-- Normalized hourly weight, line 88 of src/newproj.py:
profile /= profile.sum(). -/
noncomputable def profile (h : ℕ) : ℝ := raw_profile h / profile_sum

/-- The dict returned by calculate_daily_production. -/
structure ProductionResult where
  hourly_production : List ℝ
  total_production : ℝ

/-- Embeds SolarCellCalculator.calculate_daily_production
(lines 78-100 of src/newproj.py): convert daily irradiance to Wh,
apply temperature and tilt factors, scale the normalized Gaussian
profile, and total the 24 hourly values. -/
noncomputable def SolarCellCalculator.calculate_daily_production
    (c : SolarCellCalculator) (daily_irradiance_kwh temperature_C : ℝ) :
    ProductionResult :=
  let daily_irradiance_wh := daily_irradiance_kwh * 1000
  let tf := temp_factor temperature_C
  let kf := tilt_factor c
  let hourly_production :=
    (List.range 24).map fun h =>
      daily_irradiance_wh * profile h * c.area_m2 * c.efficiency * tf * kf
  { hourly_production := hourly_production
    total_production := hourly_production.sum }

/-- Per-square-meter annual yield computed by tab2 (lines 228-229 of
src/newproj.py): run the estimator with efficiency 1 and area 1, divide
the daily total by 1000 and scale to a year. -/
noncomputable def base_output_per_m2 (ghi_daily temperature tilt : ℝ) : ℝ :=
  ((SolarCellCalculator.mk 1 1 tilt).calculate_daily_production
      ghi_daily temperature).total_production / 1000 * 365

/-- Outcome of the tab2 sizing computation: either the user-visible
sizing error (st.error followed by st.stop, lines 231-233) or the
required area (line 235). -/
inductive SizingOutcome where
  | sizingError : SizingOutcome
  | requiredArea : ℝ → SizingOutcome

/-- Embeds the tab2 sizing branch (lines 228-235 of src/newproj.py):
if the per-square-meter yield is 0, report the sizing error and stop;
otherwise divide the target annual output by the yield. -/
noncomputable def tab2_sizing (ghi_daily temperature tilt target_annual_kwh : ℝ) :
    SizingOutcome :=
  let base := base_output_per_m2 ghi_daily temperature tilt
  if base = 0 then SizingOutcome.sizingError
  else SizingOutcome.requiredArea (target_annual_kwh / base)

/-- Latitude and longitude as returned by get_coordinates_from_city. -/
structure GeoCoordinates where
  lat : ℝ
  lon : ℝ

/-- Observable content of the tomorrow.io HTTP response consumed by
fetch_tomorrow_temperature: the status code, whether response.json()
succeeds (line 64, outside the try block), and the result of the field
extraction float(data["timelines"]["hourly"][0]["values"]["temperature"])
inside the try block (none when any step of it raises). -/
structure TomorrowResponse where
  status_code : ℤ
  json_ok : Bool
  parsed_temperature : Option ℝ

/-- Python exceptions that can escape fetch_tomorrow_temperature. -/
inductive PyError where
  | typeError : PyError
  | jsonDecodeError : PyError
  deriving DecidableEq

/-- Embeds fetch_tomorrow_temperature (lines 59-69 of src/newproj.py),
parametrized by the geocoding result and the HTTP response.  When
get_coordinates_from_city returns None, the subscript coords[...] on
line 61 raises TypeError.  On a 200 response, response.json() runs
outside the try block, so a body that fails to decode raises; a failure
of the field extraction inside the try block returns the default 25.
Any non-200 response returns 25. -/
noncomputable def fetch_tomorrow_temperature (coords : Option GeoCoordinates)
    (response : TomorrowResponse) : Except PyError ℝ :=
  match coords with
  | none => Except.error PyError.typeError
  | some _ =>
    if response.status_code = 200 then
      if response.json_ok then
        match response.parsed_temperature with
        | some t => Except.ok t
        | none => Except.ok 25
      else Except.error PyError.jsonDecodeError
    else Except.ok 25

/-! ### Basic facts about the hourly profile -/

lemma raw_profile_pos (h : ℕ) : 0 < raw_profile h := Real.exp_pos _

lemma profile_sum_pos : 0 < profile_sum :=
  Finset.sum_pos (fun i _ => raw_profile_pos i) ⟨0, by simp⟩

lemma profile_pos (h : ℕ) : 0 < profile h :=
  div_pos (raw_profile_pos h) profile_sum_pos

lemma sum_profile_eq_one : ∑ h ∈ Finset.range 24, profile h = 1 := by
  unfold profile
  rw [← Finset.sum_div]
  exact div_self (ne_of_gt profile_sum_pos)

lemma sum_map_range (n : ℕ) (f : ℕ → ℝ) :
    ((List.range n).map f).sum = ∑ i ∈ Finset.range n, f i := by
  induction n with
  | zero => simp
  | succ m ih =>
      rw [List.range_succ, List.map_append, List.sum_append,
        Finset.sum_range_succ, ih]
      simp

lemma hourly_production_def (c : SolarCellCalculator) (irr t : ℝ) :
    (c.calculate_daily_production irr t).hourly_production
      = (List.range 24).map fun h =>
          irr * 1000 * profile h * c.area_m2 * c.efficiency
            * temp_factor t * tilt_factor c := rfl

lemma hourly_length (c : SolarCellCalculator) (irr t : ℝ) :
    (c.calculate_daily_production irr t).hourly_production.length = 24 := by
  rw [hourly_production_def]
  simp

lemma hourly_getD (c : SolarCellCalculator) (irr t : ℝ) (i : ℕ) (hi : i < 24) :
    (c.calculate_daily_production irr t).hourly_production.getD i 0
      = irr * 1000 * profile i * c.area_m2 * c.efficiency
          * temp_factor t * tilt_factor c := by
  rw [hourly_production_def]
  rw [List.getD_eq_getElem _ _ (by simpa using hi)]
  simp

lemma total_production_eq (c : SolarCellCalculator) (irr t : ℝ) :
    (c.calculate_daily_production irr t).total_production
      = irr * 1000 * c.area_m2 * c.efficiency * temp_factor t * tilt_factor c := by
  show ((List.range 24).map fun h =>
      irr * 1000 * profile h * c.area_m2 * c.efficiency
        * temp_factor t * tilt_factor c).sum = _
  rw [sum_map_range]
  have step : ∀ h ∈ Finset.range 24,
      irr * 1000 * profile h * c.area_m2 * c.efficiency
          * temp_factor t * tilt_factor c
        = profile h * (irr * 1000 * c.area_m2 * c.efficiency
            * temp_factor t * tilt_factor c) := by
    intro h _
    ring
  rw [Finset.sum_congr rfl step, ← Finset.sum_mul, sum_profile_eq_one, one_mul]

/-! ### Facts about the temperature and tilt factors -/

lemma temp_factor_of_le {t : ℝ} (h : t ≤ 25) : temp_factor t = 1 := by
  unfold temp_factor
  rw [max_eq_left (by linarith)]
  ring

lemma temp_factor_anti {t1 t2 : ℝ} (h : t1 ≤ t2) :
    temp_factor t2 ≤ temp_factor t1 := by
  unfold temp_factor
  have hmax : max 0 (t1 - 25) ≤ max 0 (t2 - 25) :=
    max_le_max le_rfl (by linarith)
  nlinarith

lemma temp_factor_nonneg {t : ℝ} (h : t ≤ 275) : 0 ≤ temp_factor t := by
  unfold temp_factor
  have hmax : max 0 (t - 25) ≤ 250 := max_le (by norm_num) (by linarith)
  nlinarith

lemma tilt_factor_nonneg (c : SolarCellCalculator) : 0 ≤ tilt_factor c := by
  have h := Real.neg_one_le_sin (radians c.tilt_angle)
  unfold tilt_factor
  linarith

lemma tilt_factor_of_thirty (c : SolarCellCalculator)
    (h : c.tilt_angle = 30) : tilt_factor c = 0.75 := by
  unfold tilt_factor radians
  rw [h]
  have harg : (30 : ℝ) * Real.pi / 180 = Real.pi / 6 := by ring
  rw [harg, Real.sin_pi_div_six]
  norm_num

lemma base_output_concrete : base_output_per_m2 5 25 30 = 1368.75 := by
  unfold base_output_per_m2
  rw [total_production_eq, temp_factor_of_le (by norm_num),
    tilt_factor_of_thirty _ rfl]
  norm_num

/-! ### Claim theorems -/

/-- C1: with dailyIrradianceKwhPerM2 = 5.0, ambientTemperatureC = 25,
efficiency = 0.20, areaM2 = 2.0, tiltDegrees = 30,
calculate_daily_production returns total_production 1500 Wh, via
temp_factor 1, tilt_factor 0.75 and normalized weights summing to 1. -/
theorem C1_concrete_inputs :
    ((SolarCellCalculator.mk 0.2 2 30).calculate_daily_production
        5 25).total_production = 1500
      ∧ temp_factor 25 = 1
      ∧ tilt_factor (SolarCellCalculator.mk 0.2 2 30) = 0.75
      ∧ ∑ h ∈ Finset.range 24, profile h = 1 := by
  have htf : temp_factor 25 = 1 := temp_factor_of_le le_rfl
  have hkf : tilt_factor (SolarCellCalculator.mk 0.2 2 30) = 0.75 :=
    tilt_factor_of_thirty _ rfl
  refine ⟨?_, htf, hkf, sum_profile_eq_one⟩
  rw [total_production_eq, htf, hkf]
  norm_num

/-- C2: for every panel configuration and environmental input, the
hourly_production list has exactly 24 entries, total_production equals
their sum, and the 24 normalized Gaussian weights sum to 1. -/
theorem C2_length_and_total (c : SolarCellCalculator) (irr t : ℝ) :
    (c.calculate_daily_production irr t).hourly_production.length = 24
      ∧ (c.calculate_daily_production irr t).hourly_production.sum
          = (c.calculate_daily_production irr t).total_production
      ∧ ∑ h ∈ Finset.range 24, profile h = 1 :=
  ⟨hourly_length c irr t, rfl, sum_profile_eq_one⟩

/-- C3 counterexample: with efficiency 1, area 1, tilt 0, irradiance 1
(all valid per the claim) and ambient temperature 525 (any real value
is allowed by the claim), some hourly production entry is negative,
because temp_factor 525 = -1. -/
theorem C3_counterexample :
    ¬ (∀ x ∈ ((SolarCellCalculator.mk 1 1 0).calculate_daily_production
        1 525).hourly_production, 0 ≤ x) := by
  intro hall
  have hmem : (1 : ℝ) * 1000 * profile 12 * 1 * 1
      * temp_factor 525 * tilt_factor (SolarCellCalculator.mk 1 1 0)
      ∈ ((SolarCellCalculator.mk 1 1 0).calculate_daily_production
          1 525).hourly_production := by
    rw [hourly_production_def]
    exact List.mem_map.mpr ⟨12, by simp, rfl⟩
  have hx := hall _ hmem
  have htf : temp_factor 525 = -1 := by
    unfold temp_factor
    rw [max_eq_right (by norm_num)]
    norm_num
  have hkf : tilt_factor (SolarCellCalculator.mk 1 1 0) = 0.5 := by
    unfold tilt_factor radians
    norm_num
  rw [htf, hkf] at hx
  have hp := profile_pos 12
  nlinarith

/-- C3 amended: with valid panel inputs, non-negative irradiance and
ambient temperature at most 275 (so that the temperature derating
factor stays non-negative), every hourly production entry is
non-negative.  The original claim allows any real temperature, but
temp_factor is negative above 275. -/
theorem C3_hourly_nonneg (c : SolarCellCalculator) (irr t : ℝ)
    (heff0 : 0 < c.efficiency) (_heff1 : c.efficiency ≤ 1)
    (harea : 0 < c.area_m2) (_htilt0 : 0 ≤ c.tilt_angle)
    (_htilt90 : c.tilt_angle ≤ 90) (hirr : 0 ≤ irr) (ht : t ≤ 275) :
    ∀ x ∈ (c.calculate_daily_production irr t).hourly_production, 0 ≤ x := by
  intro x hx
  rw [hourly_production_def] at hx
  obtain ⟨h, _, rfl⟩ := List.mem_map.mp hx
  have h1 : (0 : ℝ) ≤ irr * 1000 := by linarith
  have h2 : (0 : ℝ) ≤ irr * 1000 * profile h :=
    mul_nonneg h1 (profile_pos h).le
  have h3 : (0 : ℝ) ≤ irr * 1000 * profile h * c.area_m2 :=
    mul_nonneg h2 harea.le
  have h4 : (0 : ℝ) ≤ irr * 1000 * profile h * c.area_m2 * c.efficiency :=
    mul_nonneg h3 heff0.le
  have h5 := mul_nonneg h4 (temp_factor_nonneg ht)
  exact mul_nonneg h5 (tilt_factor_nonneg c)

/-- Witness for C3_hourly_nonneg at a concrete valid input. -/
theorem C3_hourly_nonneg_witness :
    0 ≤ ((SolarCellCalculator.mk 0.2 2 30).calculate_daily_production
        5 25).hourly_production.getD 0 0 := by
  have hlen : 0 < ((SolarCellCalculator.mk 0.2 2 30).calculate_daily_production
      5 25).hourly_production.length := by
    rw [hourly_length]
    norm_num
  rw [List.getD_eq_getElem _ _ hlen]
  exact C3_hourly_nonneg (SolarCellCalculator.mk 0.2 2 30) 5 25
    (by norm_num) (by norm_num) (by norm_num) (by norm_num)
    (by norm_num) (by norm_num) (by norm_num) _ (List.getElem_mem hlen)

/-- C4: for fixed valid irradiance, tilt, efficiency and area, the
total production is non-increasing as the ambient temperature rises
above 25, and for every temperature at most 25 it equals the value
obtained at 25 (no derating or bonus below 25). -/
theorem C4_temperature_monotonicity (c : SolarCellCalculator) (irr : ℝ)
    (heff0 : 0 < c.efficiency) (_heff1 : c.efficiency ≤ 1)
    (harea : 0 < c.area_m2) (_htilt0 : 0 ≤ c.tilt_angle)
    (_htilt90 : c.tilt_angle ≤ 90) (hirr : 0 ≤ irr) :
    (∀ t1 t2 : ℝ, 25 ≤ t1 → t1 ≤ t2 →
        (c.calculate_daily_production irr t2).total_production
          ≤ (c.calculate_daily_production irr t1).total_production)
      ∧ (∀ t : ℝ, t ≤ 25 →
          (c.calculate_daily_production irr t).total_production
            = (c.calculate_daily_production irr 25).total_production) := by
  constructor
  · intro t1 t2 _ h12
    rw [total_production_eq, total_production_eq]
    have hK : (0 : ℝ) ≤ irr * 1000 * c.area_m2 * c.efficiency :=
      mul_nonneg (mul_nonneg (by linarith) harea.le) heff0.le
    exact mul_le_mul_of_nonneg_right
      (mul_le_mul_of_nonneg_left (temp_factor_anti h12) hK)
      (tilt_factor_nonneg c)
  · intro t ht
    rw [total_production_eq, total_production_eq,
      temp_factor_of_le ht, temp_factor_of_le le_rfl]

/-- Witness for C4_temperature_monotonicity at a concrete valid input. -/
theorem C4_temperature_monotonicity_witness :
    ((SolarCellCalculator.mk 0.2 2 30).calculate_daily_production
        5 30).total_production
      ≤ ((SolarCellCalculator.mk 0.2 2 30).calculate_daily_production
          5 25).total_production :=
  (C4_temperature_monotonicity (SolarCellCalculator.mk 0.2 2 30) 5
      (by norm_num) (by norm_num) (by norm_num) (by norm_num)
      (by norm_num) (by norm_num)).1 25 30 le_rfl (by norm_num)

/-- C5 counterexample: with irradiance 1, efficiency 1, area 1, tilt 0
(all allowed by the claim) and ambient temperature 525 (unconstrained
by the claim), the noon entry is strictly below the hour 0 entry, so
hourly_production at index 12 is not the maximum: temp_factor 525 = -1
flips the profile. -/
theorem C5_counterexample :
    ((SolarCellCalculator.mk 1 1 0).calculate_daily_production
        1 525).hourly_production.getD 12 0
      < ((SolarCellCalculator.mk 1 1 0).calculate_daily_production
          1 525).hourly_production.getD 0 0 := by
  rw [hourly_getD _ _ _ _ (by norm_num), hourly_getD _ _ _ _ (by norm_num)]
  have htf : temp_factor 525 = -1 := by
    unfold temp_factor
    rw [max_eq_right (by norm_num)]
    norm_num
  have hkf : tilt_factor (SolarCellCalculator.mk 1 1 0) = 0.5 := by
    unfold tilt_factor radians
    norm_num
  rw [htf, hkf]
  have hraw : raw_profile 0 < raw_profile 12 := by
    unfold raw_profile
    apply Real.exp_lt_exp.mpr
    norm_num
  have hprof : profile 0 < profile 12 :=
    (div_lt_div_iff_of_pos_right profile_sum_pos).mpr hraw
  nlinarith

/-- C5 amended: for positive irradiance, valid panel inputs and
ambient temperature at most 275 (so that the temperature derating
factor stays non-negative), the noon entry hourly_production[12] is
the maximum of the 24 entries.  The original claim leaves the
temperature unconstrained, but above 275 the profile is flipped. -/
theorem C5_noon_peak (c : SolarCellCalculator) (irr t : ℝ)
    (hirr : 0 < irr) (heff0 : 0 < c.efficiency) (_heff1 : c.efficiency ≤ 1)
    (harea : 0 < c.area_m2) (_htilt0 : 0 ≤ c.tilt_angle)
    (_htilt90 : c.tilt_angle ≤ 90) (ht : t ≤ 275) :
    ∀ i < 24, (c.calculate_daily_production irr t).hourly_production.getD i 0
      ≤ (c.calculate_daily_production irr t).hourly_production.getD 12 0 := by
  intro i hi
  rw [hourly_getD _ _ _ _ hi, hourly_getD _ _ _ _ (by norm_num)]
  have hraw : raw_profile i ≤ raw_profile 12 := by
    unfold raw_profile
    apply Real.exp_le_exp.mpr
    nlinarith [sq_nonneg (((i : ℝ) - 12) / 4)]
  have hprof : profile i ≤ profile 12 :=
    (div_le_div_iff_of_pos_right profile_sum_pos).mpr hraw
  have h1 : (0 : ℝ) ≤ irr * 1000 := by linarith
  have h2 : irr * 1000 * profile i ≤ irr * 1000 * profile 12 :=
    mul_le_mul_of_nonneg_left hprof h1
  have h3 := mul_le_mul_of_nonneg_right h2 harea.le
  have h4 := mul_le_mul_of_nonneg_right h3 heff0.le
  have h5 := mul_le_mul_of_nonneg_right h4 (temp_factor_nonneg ht)
  exact mul_le_mul_of_nonneg_right h5 (tilt_factor_nonneg c)

/-- Witness for C5_noon_peak at a concrete valid input and hour 0. -/
theorem C5_noon_peak_witness :
    ((SolarCellCalculator.mk 0.2 2 30).calculate_daily_production
        5 25).hourly_production.getD 0 0
      ≤ ((SolarCellCalculator.mk 0.2 2 30).calculate_daily_production
          5 25).hourly_production.getD 12 0 :=
  C5_noon_peak (SolarCellCalculator.mk 0.2 2 30) 5 25
    (by norm_num) (by norm_num) (by norm_num) (by norm_num)
    (by norm_num) (by norm_num) (by norm_num) 0 (by norm_num)

/-- C6: the tilt factor equals 0.5 at tilt 0, equals 1 at tilt 90, and
is strictly increasing on the interval from 0 to 90 degrees. -/
theorem C6_tilt_factor_shape :
    (∀ c : SolarCellCalculator, c.tilt_angle = 0 → tilt_factor c = 0.5)
      ∧ (∀ c : SolarCellCalculator, c.tilt_angle = 90 → tilt_factor c = 1)
      ∧ (∀ c1 c2 : SolarCellCalculator, 0 ≤ c1.tilt_angle →
          c1.tilt_angle < c2.tilt_angle → c2.tilt_angle ≤ 90 →
          tilt_factor c1 < tilt_factor c2) := by
  have hpi := Real.pi_pos
  have hmem : ∀ x : ℝ, 0 ≤ x → x ≤ 90 →
      radians x ∈ Set.Icc (-(Real.pi / 2)) (Real.pi / 2) := by
    intro x hx0 hx90
    unfold radians
    constructor
    · have h1 : (0 : ℝ) ≤ x * Real.pi := mul_nonneg hx0 hpi.le
      have h2 : (0 : ℝ) ≤ x * Real.pi / 180 := by positivity
      linarith
    · have h1 : x * Real.pi ≤ 90 * Real.pi :=
        mul_le_mul_of_nonneg_right hx90 hpi.le
      linarith
  refine ⟨?_, ?_, ?_⟩
  · intro c hc
    unfold tilt_factor radians
    rw [hc]
    norm_num
  · intro c hc
    unfold tilt_factor radians
    rw [hc]
    have harg : (90 : ℝ) * Real.pi / 180 = Real.pi / 2 := by ring
    rw [harg, Real.sin_pi_div_two]
    norm_num
  · intro c1 c2 h0 hlt h90
    have hr : radians c1.tilt_angle < radians c2.tilt_angle := by
      unfold radians
      have h1 : c1.tilt_angle * Real.pi < c2.tilt_angle * Real.pi :=
        mul_lt_mul_of_pos_right hlt hpi
      linarith
    have hs := Real.strictMonoOn_sin
      (hmem c1.tilt_angle h0 (by linarith))
      (hmem c2.tilt_angle (by linarith) h90) hr
    unfold tilt_factor
    linarith

/-- Witness for C6_tilt_factor_shape at tilt angles 0, 90, 30 and 60. -/
theorem C6_tilt_factor_shape_witness :
    tilt_factor (SolarCellCalculator.mk 0.2 2 0) = 0.5
      ∧ tilt_factor (SolarCellCalculator.mk 0.2 2 90) = 1
      ∧ tilt_factor (SolarCellCalculator.mk 0.2 2 30)
          < tilt_factor (SolarCellCalculator.mk 0.2 2 60) :=
  ⟨C6_tilt_factor_shape.1 _ rfl, C6_tilt_factor_shape.2.1 _ rfl,
    C6_tilt_factor_shape.2.2 _ _ (by norm_num) (by norm_num) (by norm_num)⟩

/-- C7: when the per-square-meter annual yield (estimator run with
efficiency 1 and area 1, scaled to a year) is positive, re-running the
estimator with efficiency 1 and area equal to the target divided by
that yield reproduces the target annual output exactly. -/
theorem C7_sizing_inversion (ghi temperature tilt T : ℝ)
    (hY : 0 < base_output_per_m2 ghi temperature tilt) :
    ((SolarCellCalculator.mk 1
          (T / base_output_per_m2 ghi temperature tilt)
          tilt).calculate_daily_production ghi temperature).total_production
        / 1000 * 365 = T := by
  have hbase : base_output_per_m2 ghi temperature tilt
      = ghi * 1000 * 1 * 1 * temp_factor temperature
          * tilt_factor (SolarCellCalculator.mk 1 1 tilt) / 1000 * 365 := by
    unfold base_output_per_m2
    rw [total_production_eq]
  have hkf : tilt_factor (SolarCellCalculator.mk 1
        (T / base_output_per_m2 ghi temperature tilt) tilt)
      = tilt_factor (SolarCellCalculator.mk 1 1 tilt) := rfl
  rw [total_production_eq, hkf]
  have hY0 : base_output_per_m2 ghi temperature tilt ≠ 0 := ne_of_gt hY
  field_simp
  rw [hbase]
  ring

/-- Witness for C7_sizing_inversion with irradiance 5, temperature 25,
tilt 30 and target 1000, where the yield is 1368.75. -/
theorem C7_sizing_inversion_witness :
    ((SolarCellCalculator.mk 1
          ((1000 : ℝ) / base_output_per_m2 5 25 30)
          30).calculate_daily_production 5 25).total_production
        / 1000 * 365 = 1000 :=
  C7_sizing_inversion 5 25 30 1000
    (by rw [base_output_concrete]; norm_num)

/-- C8: for every input, the tab2 sizing computation either has a zero
per-square-meter yield and reports the user-visible sizing error
without computing a required area, or has a non-zero yield and returns
the required area obtained by the division target / yield. -/
theorem C8_zero_yield_guard (ghi temperature tilt T : ℝ) :
    (base_output_per_m2 ghi temperature tilt = 0
        ∧ tab2_sizing ghi temperature tilt T = SizingOutcome.sizingError)
      ∨ (base_output_per_m2 ghi temperature tilt ≠ 0
        ∧ tab2_sizing ghi temperature tilt T
            = SizingOutcome.requiredArea
                (T / base_output_per_m2 ghi temperature tilt)) := by
  by_cases h : base_output_per_m2 ghi temperature tilt = 0
  · exact Or.inl ⟨h, by unfold tab2_sizing; rw [if_pos h]⟩
  · exact Or.inr ⟨h, by unfold tab2_sizing; rw [if_neg h]⟩

/-- C9 counterexample: when geocoding fails (get_coordinates_from_city
returns None), fetch_tomorrow_temperature raises TypeError from the
subscript on line 61 instead of returning the default 25, even though
the HTTP response itself is perfectly well formed. -/
theorem C9_counterexample :
    fetch_tomorrow_temperature none
        (TomorrowResponse.mk 200 true (some 20))
      = Except.error PyError.typeError := rfl

/-- C9 amended: provided geocoding succeeds and any 200 response body
decodes as JSON, fetch_tomorrow_temperature never fails its caller: it
returns the parsed temperature on success and the default 25 on a
non-200 response or on a missing or malformed temperature field.  The
original claim also covers geocoding failure, where the code instead
raises TypeError. -/
theorem C9_default_on_failure (c : GeoCoordinates) (r : TomorrowResponse)
    (hjson : r.status_code = 200 → r.json_ok = true) :
    fetch_tomorrow_temperature (some c) r
      = Except.ok (if r.status_code = 200
          then r.parsed_temperature.getD 25 else 25) := by
  by_cases hs : r.status_code = 200
  · have hj := hjson hs
    cases hp : r.parsed_temperature with
    | none => simp [fetch_tomorrow_temperature, hs, hj, hp]
    | some v => simp [fetch_tomorrow_temperature, hs, hj, hp]
  · simp [fetch_tomorrow_temperature, hs]

/-- Witness for C9_default_on_failure: a 404 response with an
undecodable body and no parsed field still yields the default 25. -/
theorem C9_default_on_failure_witness :
    fetch_tomorrow_temperature (some (GeoCoordinates.mk 0 0))
        (TomorrowResponse.mk 404 false none)
      = Except.ok 25 := by
  have h := C9_default_on_failure (GeoCoordinates.mk 0 0)
    (TomorrowResponse.mk 404 false none) (by intro hc; exact absurd hc (by decide))
  simpa using h

/-- C10: the hourly profile is symmetric about noon: for every input
and every k between 1 and 11, the entry at hour 12 - k equals the
entry at hour 12 + k, because the Gaussian weight depends only on the
distance to hour 12. -/
theorem C10_noon_symmetry (c : SolarCellCalculator) (irr t : ℝ)
    (k : ℕ) (hk1 : 1 ≤ k) (hk11 : k ≤ 11) :
    (c.calculate_daily_production irr t).hourly_production.getD (12 - k) 0
      = (c.calculate_daily_production irr t).hourly_production.getD (12 + k) 0 := by
  rw [hourly_getD _ _ _ _ (by omega), hourly_getD _ _ _ _ (by omega)]
  have hk12 : k ≤ 12 := by omega
  have hcast : ((12 - k : ℕ) : ℝ) = 12 - (k : ℝ) := by
    rw [Nat.cast_sub hk12]
    norm_num
  have harg : -0.5 * ((((12 - k : ℕ) : ℝ) - 12) / 4) ^ 2
      = -0.5 * ((((12 + k : ℕ) : ℝ) - 12) / 4) ^ 2 := by
    rw [hcast]
    push_cast
    ring
  have hprof : profile (12 - k) = profile (12 + k) := by
    unfold profile raw_profile
    rw [harg]
  rw [hprof]

/-- Witness for C10_noon_symmetry at k = 3 and a concrete input. -/
theorem C10_noon_symmetry_witness :
    ((SolarCellCalculator.mk 0.2 2 30).calculate_daily_production
        5 25).hourly_production.getD 9 0
      = ((SolarCellCalculator.mk 0.2 2 30).calculate_daily_production
          5 25).hourly_production.getD 15 0 := by
  have h := C10_noon_symmetry (SolarCellCalculator.mk 0.2 2 30) 5 25 3
    (by norm_num) (by norm_num)
  simpa using h
